import Mathlib

/-!
Verification development for the GitHub App token-refresh daemon subsystem:
a shallow embedding of `src/daemon/token-manager.ts` (TokenManager),
`src/daemon/token-refresh-daemon.ts` (TokenRefreshDaemon and
DaemonController) and `src/mcp/token-refresh-server.ts`
(TokenRefreshServer), together with theorems settling the specification
claims about them.

Modelling conventions:
 - machine time is `Nat` milliseconds (JavaScript `Date.now()`);
 - ISO-8601 timestamp rendering is an abstract function `Nat → String`
   where a string is required, and timestamps kept as `Nat` where only
   their ordering matters;
 - fallible operations return `Except`/`Option`; JavaScript string
   falsiness (`!s` true for absent or empty strings) is modelled
   explicitly;
 - the filesystem visible to one process is an explicit record of the
   status / pid / log file contents; a status file is `none` when absent,
   `some none` when present but unparsable JSON, and `some (some st)`
   when it parses to a status record.
-/

/-! ## Data model: daemon status records (`DaemonStatus` in both files) -/

/-- The `status` field of a `DaemonStatus` record:
`"running" | "stopped" | "error"`. -/
inductive StKind
  | running
  | stopped
  | error
deriving DecidableEq

/-- A parsed `DaemonStatus` record (status-file JSON object).
`startTime`, `lastRefresh`, `nextRefresh` are ISO timestamps in the
source, modelled as their millisecond values. -/
structure DStatus where
  pid : Nat
  startTime : Nat
  status : StKind
  lastRefresh : Option Nat
  nextRefresh : Option Nat
  refreshCount : Nat
deriving DecidableEq

/-! ## TokenManager (`src/daemon/token-manager.ts`) -/

/-- The error thrown by the `createAppAuth` handshake itself. -/
inductive AuthErr
  | handshakeFailed
deriving DecidableEq

/-- The fields of the `authResult` object returned by the `auth` call in
`TokenManager.getToken`.  `token` is `none` when the `"token" in
authResult` test fails; `some ""` is a present-but-falsy token.
`expiresAt` and `installationId` are `none` when absent. -/
structure AuthResult where
  token : Option String
  expiresAt : Option String
  installationId : Option Nat
deriving DecidableEq

/-- `TokenInfo` as in `token-manager.ts`. -/
structure TokenInfo where
  token : String
  expiresAt : String
  installationId : Nat
deriving DecidableEq

/-- The two failure modes of `TokenManager.getToken`: the auth handshake
threw, or the response lacked a usable token. -/
inductive GetTokenErr
  | handshake
  | noUsableToken
deriving DecidableEq

/-- JavaScript truthiness of an optional string:
`!s` is true exactly when the field is absent or the empty string. -/
def jsTruthyStr : Option String → Bool
  | none => false
  | some s => !(s == "")

/-- JavaScript `v || dflt` for an optional string `v`. -/
def jsOrStr (v : Option String) (dflt : String) : String :=
  match v with
  | none => dflt
  | some s => if s == "" then dflt else s

/-- `TokenManager.getToken`, lines 37-68 of `token-manager.ts`.

Inputs: `iso` renders a millisecond timestamp as an ISO string
(`new Date(ms).toISOString()`), `nowMs` is `Date.now()`, `authResult`
is the outcome of the `await this.auth(...)` handshake, and
`currentToken` is the cached `this.currentToken` before the call.

Output: the new value of `this.currentToken`, paired with the
return-or-throw outcome.  On a handshake error the catch block only
logs and rethrows; on a missing/falsy token the method throws; in both
cases the cache is not assigned.  On success the method builds
`tokenInfo` with `expiresAt` defaulting to one hour from now and
`installationId` defaulting to `0`, assigns the cache, and returns it. -/
def getToken (iso : Nat → String) (nowMs : Nat)
    (authResult : Except AuthErr AuthResult) (currentToken : Option TokenInfo) :
    Option TokenInfo × Except GetTokenErr TokenInfo :=
  match authResult with
  | Except.error _ => (currentToken, Except.error GetTokenErr.handshake)
  | Except.ok r =>
    if jsTruthyStr r.token then
      let tokenInfo : TokenInfo :=
        { token := (r.token).getD ("")
          expiresAt := jsOrStr r.expiresAt (iso (nowMs + 60 * 60 * 1000))
          installationId := (r.installationId).getD 0 }
      (some tokenInfo, Except.ok tokenInfo)
    else
      (currentToken, Except.error GetTokenErr.noUsableToken)

/-- The five-minute window in `TokenManager.needsRefresh`
(`Date.now() + 5 * 60 * 1000`): the safety margin before expiry within
which a credential is no longer trusted. -/
def refreshSafetyMarginMs : Nat := 5 * 60 * 1000

/-- The default credential lifetime used by `getToken` when the response
carries no `expiresAt` (`Date.now() + 60 * 60 * 1000`). -/
def defaultTokenLifetimeMs : Nat := 60 * 60 * 1000

/-- `nextRefresh` as computed in `TokenRefreshDaemon.refreshTokenAndAuth`
(lines 128-130): `Date.now() + refreshIntervalMinutes * 60 * 1000`. -/
def computeNextRefresh (nowMs refreshIntervalMinutes : Nat) : Nat :=
  nowMs + refreshIntervalMinutes * 60 * 1000

/-! ## Claims C9, C10, C6 -/

/-- C9: when the minting handshake succeeds with a usable token but the
response carries no expiry timestamp, `getToken` does not fail: it
returns a credential whose `expiresAt` defaults to one hour from the
current time, and whose `installationId` defaults to `0` when absent. -/
theorem claim_c9 (iso : Nat → String) (nowMs : Nat) (r : AuthResult)
    (cur : Option TokenInfo)
    (htok : jsTruthyStr r.token = true) (hexp : r.expiresAt = none) :
    (getToken iso nowMs (Except.ok r) cur).2 =
      Except.ok { token := (r.token).getD ("")
                  expiresAt := iso (nowMs + 60 * 60 * 1000)
                  installationId := (r.installationId).getD 0 } ∧
    (r.installationId = none →
      (getToken iso nowMs (Except.ok r) cur).2 =
        Except.ok { token := (r.token).getD ("")
                    expiresAt := iso (nowMs + 60 * 60 * 1000)
                    installationId := 0 }) := by
  constructor
  · simp [getToken, htok, hexp, jsOrStr]
  · intro hinst
    simp [getToken, htok, hexp, hinst, jsOrStr]

/-- A concrete auth response for the C9 witness: usable token, no
expiry, no installation id. -/
def rEx9 : AuthResult := { token := some ("tok"), expiresAt := none, installationId := none }

/-- An abstract-but-concrete ISO renderer for witnesses. -/
def isoEx : Nat → String := fun n => toString n

/-- Witness for C9 at a concrete input. -/
theorem claim_c9_witness :
    jsTruthyStr rEx9.token = true ∧ rEx9.expiresAt = none ∧
    (getToken isoEx 1000 (Except.ok rEx9) none).2 =
      Except.ok { token := (rEx9.token).getD ("")
                  expiresAt := isoEx (1000 + 60 * 60 * 1000)
                  installationId := (rEx9.installationId).getD 0 } :=
  ⟨by decide, rfl, (claim_c9 isoEx 1000 rEx9 none (by decide) rfl).1⟩

/-- C10: if `getToken` fails (handshake error or response lacking a
usable token), the cached credential `currentToken` is unchanged: the
cache is replaced only after a fully successful mint. -/
theorem claim_c10 (iso : Nat → String) (nowMs : Nat)
    (authResult : Except AuthErr AuthResult) (cur : Option TokenInfo)
    (e : GetTokenErr)
    (herr : (getToken iso nowMs authResult cur).2 = Except.error e) :
    (getToken iso nowMs authResult cur).1 = cur := by
  match authResult with
  | Except.error _ => rfl
  | Except.ok r =>
    by_cases htok : jsTruthyStr r.token
    · simp [getToken, htok] at herr
    · simp [getToken, htok]

/-- A cached credential for the C10 witness. -/
def tiEx10 : TokenInfo := { token := ("cached"), expiresAt := ("e"), installationId := 7 }

/-- Witness for C10: a handshake failure leaves the concrete cached
credential in place. -/
theorem claim_c10_witness :
    (getToken isoEx 0 (Except.error AuthErr.handshakeFailed) (some tiEx10)).2 =
      Except.error GetTokenErr.handshake ∧
    (getToken isoEx 0 (Except.error AuthErr.handshakeFailed) (some tiEx10)).1 =
      some tiEx10 :=
  ⟨rfl, claim_c10 isoEx 0 (Except.error AuthErr.handshakeFailed) (some tiEx10)
    GetTokenErr.handshake rfl⟩

/-- Counterexample to C6 as stated: with `refreshIntervalMinutes = 120`
and the default one-hour credential lifetime, the computed
`nextRefresh` (now + 120 min) is NOT below `expiresAt` minus the
five-minute safety margin.  Nothing in the code constrains the
configured interval against the credential lifetime. -/
theorem claim_c6_counterexample :
    ¬ (computeNextRefresh 0 120 < (0 + defaultTokenLifetimeMs) - refreshSafetyMarginMs) := by
  decide

/-- C6 (amended): `nextRefresh = now + refreshIntervalMinutes * 60 * 1000`
is strictly below the credential's expiry minus the safety margin
exactly when `refreshIntervalMinutes * 60 * 1000 + margin` is below the
credential lifetime; in particular this holds for the default 30-minute
interval with the default one-hour lifetime, but not for every
configured interval and lifetime. -/
theorem claim_c6_amended :
    (∀ nowMs m lifetime : Nat,
      computeNextRefresh nowMs m < (nowMs + lifetime) - refreshSafetyMarginMs ↔
        m * 60 * 1000 + refreshSafetyMarginMs < lifetime) ∧
    (∀ nowMs : Nat,
      computeNextRefresh nowMs 30 < (nowMs + defaultTokenLifetimeMs) - refreshSafetyMarginMs) := by
  constructor
  · intro nowMs m lifetime
    simp only [computeNextRefresh, refreshSafetyMarginMs]
    omega
  · intro nowMs
    simp only [computeNextRefresh, refreshSafetyMarginMs, defaultTokenLifetimeMs]
    omega

/-! ## TokenRefreshDaemon: the refresh loop
(`src/daemon/token-refresh-daemon.ts`, class `TokenRefreshDaemon`)

The daemon process is single-threaded and timer-driven.  Its observable
state is the in-memory fields (`refreshTimer`, `maxRuntimeTimer`,
`refreshCount`) plus the status-file record it maintains through
`updateStatus` (a read-merge-write, so fields not mentioned in an
update survive).  The keep-alive `setInterval` (line 101) performs no
work and is omitted.  External effects (git / gh subprocesses, the
network mint) enter the model only through the outcome of a tick.
`tickDurMs` is the wall-clock duration of one mint-and-propagate cycle;
timestamps are milliseconds from an arbitrary origin. -/

/-- The in-memory and status-file state of the daemon process.
`refreshTimer` / `maxRuntimeTimer` hold the absolute expiry time of the
pending `setTimeout`, if any.  `stStatus`, `stLastRefresh`,
`stNextRefresh`, `stRefreshCount` are the fields of the status-file
record (the `pid` / `startTime` fields never change after the initial
write and are omitted).  `exitCode` is `some c` once `process.exit(c)`
has run. -/
structure LoopState where
  nowMs : Nat
  refreshIntervalMinutes : Nat
  tickDurMs : Nat
  refreshTimer : Option Nat
  maxRuntimeTimer : Option Nat
  refreshCount : Nat
  stStatus : StKind
  stLastRefresh : Option Nat
  stNextRefresh : Option Nat
  stRefreshCount : Nat
  exitCode : Option Nat
deriving DecidableEq

/-- Outcome of one mint-and-propagate cycle: success, or a failure at
the mint, the git credential rewrite, or the gh re-login step. -/
inductive TickOutcome
  | success
  | mintFailed
  | gitAuthFailed
  | ghAuthFailed
deriving DecidableEq

/-- `TokenRefreshDaemon.refreshTokenAndAuth` (lines 114-146) as a state
transformer.  Returns the state after the call together with `true`
when the method threw.  On success: `refreshCount++`, then
`updateStatus({lastRefresh, nextRefresh, refreshCount})` — a merge that
leaves the `status` field as it was.  On any failure:
`updateStatus({status: "error"})` and rethrow, leaving `refreshCount`
and the other status fields untouched.  Either way the cycle takes
`tickDurMs` of wall-clock time. -/
def refreshTokenAndAuth (s : LoopState) (o : TickOutcome) : LoopState × Bool :=
  match o with
  | TickOutcome.success =>
    ({ s with
        nowMs := s.nowMs + s.tickDurMs
        refreshCount := s.refreshCount + 1
        stLastRefresh := some (s.nowMs + s.tickDurMs)
        stNextRefresh := some (s.nowMs + s.tickDurMs + s.refreshIntervalMinutes * 60 * 1000)
        stRefreshCount := s.refreshCount + 1 }, false)
  | _ =>
    ({ s with
        nowMs := s.nowMs + s.tickDurMs
        stStatus := StKind.error }, true)

/-- `TokenRefreshDaemon.scheduleNextRefresh` (lines 210-226): clear any
pending refresh timer and arm a fresh `setTimeout` for
`refreshIntervalMinutes * 60 * 1000` ms from now. -/
def scheduleNextRefresh (s : LoopState) : LoopState :=
  { s with refreshTimer := some (s.nowMs + s.refreshIntervalMinutes * 60 * 1000) }

/-- The body of the `setTimeout` callback armed by
`scheduleNextRefresh`: `try { await refreshTokenAndAuth();
scheduleNextRefresh() } catch { log; scheduleNextRefresh() }` — the
next tick is rescheduled at the same fixed interval whether the cycle
succeeded or threw. -/
def onRefreshTimerFire (s : LoopState) (o : TickOutcome) : LoopState :=
  scheduleNextRefresh (refreshTokenAndAuth s o).1

/-- `TokenRefreshDaemon.shutdown` (lines 231-245) as run by the
max-runtime timer: clear both timers, `updateStatus({status:
"stopped"})`, `process.exit(0)`. -/
def onMaxRuntimeFire (s : LoopState) : LoopState :=
  { s with
      refreshTimer := none
      maxRuntimeTimer := none
      stStatus := StKind.stopped
      exitCode := some 0 }

/-- The daemon process's event loop, fuelled: repeatedly fire whichever
pending timer expires first (scheduled refresh ticks always succeed —
this runs the failure-free executions).  Firing a timer sets the clock
to its expiry and clears it (a `setTimeout` is one-shot) before running
its callback.  On an expiry tie the max-runtime timer fires first: in
every reachable configuration it was registered before the currently
pending refresh timer, and the runtime runs same-deadline timers in
registration order.  After `process.exit` nothing runs. -/
def loopRun : Nat → LoopState → LoopState
  | 0, s => s
  | fuel + 1, s =>
    if s.exitCode.isSome then s
    else
      match s.refreshTimer, s.maxRuntimeTimer with
      | some r, some m =>
        if r < m then
          loopRun fuel (onRefreshTimerFire { s with nowMs := r, refreshTimer := none } TickOutcome.success)
        else
          loopRun fuel (onMaxRuntimeFire { s with nowMs := m })
      | some r, none =>
        loopRun fuel (onRefreshTimerFire { s with nowMs := r, refreshTimer := none } TickOutcome.success)
      | none, some m =>
        loopRun fuel (onMaxRuntimeFire { s with nowMs := m })
      | none, none => s

/-- `TokenRefreshDaemon.start` (lines 60-109), taking the time origin at
process start: write the initial status record (`running`,
`refreshCount: 0`), run the initial `refreshTokenAndAuth` (successful,
of duration `dInit`), arm the periodic refresh via
`scheduleNextRefresh`, then arm the max-runtime timer for
`maxRuntimeHours * 60 * 60 * 1000` ms from that moment. -/
def startState (mI mh dInit : Nat) : LoopState :=
  let s0 : LoopState :=
    { nowMs := 0
      refreshIntervalMinutes := mI
      tickDurMs := dInit
      refreshTimer := none
      maxRuntimeTimer := none
      refreshCount := 0
      stStatus := StKind.running
      stLastRefresh := none
      stNextRefresh := none
      stRefreshCount := 0
      exitCode := none }
  let s2 := scheduleNextRefresh (refreshTokenAndAuth s0 TickOutcome.success).1
  { s2 with maxRuntimeTimer := some (s2.nowMs + mh * 60 * 60 * 1000) }

/-- Absolute expiry of the `k`-th scheduled refresh tick (`k ≥ 1`) in a
failure-free run whose scheduled ticks each take `d` ms, counting from
the moment the timers were first armed: each cycle adds one interval of
waiting plus `d` of work, so tick `k` is due at `k * (interval + d)`. -/
def tickExpiry (mI d k : Nat) : Nat := k * (mI * 60 * 1000 + d)

/-- The daemon state after the `k`-th scheduled tick of a failure-free
run has completed and rescheduled (for `k = 0`, right after `start`
finished: the initial tick counts as refresh number 1). -/
def stateAt (mI mh d k : Nat) : LoopState :=
  { nowMs := tickExpiry mI d k + d
    refreshIntervalMinutes := mI
    tickDurMs := d
    refreshTimer := some (tickExpiry mI d (k + 1))
    maxRuntimeTimer := some (d + mh * 60 * 60 * 1000)
    refreshCount := k + 1
    stStatus := StKind.running
    stLastRefresh := some (tickExpiry mI d k + d)
    stNextRefresh := some (tickExpiry mI d (k + 1))
    stRefreshCount := k + 1
    exitCode := none }

/-- The terminal state of a failure-free run that completed `k`
scheduled ticks before the max-runtime timer fired: both timers
cancelled, status `stopped`, exit code 0. -/
def stoppedStateAt (mI mh d k : Nat) : LoopState :=
  { stateAt mI mh d k with
      nowMs := d + mh * 60 * 60 * 1000
      refreshTimer := none
      maxRuntimeTimer := none
      stStatus := StKind.stopped
      exitCode := some 0 }

/-- `start` leaves the daemon exactly in the `k = 0` regular state. -/
theorem startState_eq_stateAt (mI mh d : Nat) :
    startState mI mh d = stateAt mI mh d 0 := by
  simp only [startState, stateAt, scheduleNextRefresh, refreshTokenAndAuth, tickExpiry,
    LoopState.mk.injEq, Option.some.injEq]
  and_intros <;> first | trivial | ring

/-- Once `process.exit` has run, the event loop does nothing more. -/
theorem loopRun_exited (fuel : Nat) (s : LoopState) (c : Nat)
    (h : s.exitCode = some c) : loopRun fuel s = s := by
  cases fuel with
  | zero => rfl
  | succ n => simp [loopRun, h]

/-- One failure-free scheduled tick: if the pending refresh timer
expires strictly before the max-runtime timer, firing it moves the run
from the `k`-th regular state to the `(k+1)`-th. -/
theorem loopRun_stateAt_step (mI mh d k fuel : Nat)
    (h : tickExpiry mI d (k + 1) < d + mh * 60 * 60 * 1000) :
    loopRun (fuel + 1) (stateAt mI mh d k) = loopRun fuel (stateAt mI mh d (k + 1)) := by
  simp only [loopRun, stateAt, Option.isSome_none, Bool.false_eq_true, if_false]
  rw [if_pos h]
  congr 1
  simp only [onRefreshTimerFire, refreshTokenAndAuth, scheduleNextRefresh, tickExpiry,
    LoopState.mk.injEq, Option.some.injEq]
  and_intros <;> first | trivial | ring

/-- The max-runtime timer fires when no earlier refresh tick is due:
the daemon shuts down from the `k`-th regular state. -/
theorem loopRun_stateAt_stop (mI mh d k fuel : Nat)
    (h : d + mh * 60 * 60 * 1000 ≤ tickExpiry mI d (k + 1)) :
    loopRun (fuel + 1) (stateAt mI mh d k) = stoppedStateAt mI mh d k := by
  simp only [loopRun, stateAt, Option.isSome_none, Bool.false_eq_true, if_false]
  rw [if_neg (not_lt.mpr h)]
  rw [loopRun_exited fuel _ 0 rfl]
  rfl

/-- A failure-free run from the `k`-th regular state performs exactly
the `j` further scheduled ticks whose expiries precede the max-runtime
deadline, then shuts down. -/
theorem loopRun_ticks (mI mh d : Nat) :
    ∀ (j k fuel : Nat), j + 1 ≤ fuel →
    (∀ i, i < j → tickExpiry mI d (k + i + 1) < d + mh * 60 * 60 * 1000) →
    (d + mh * 60 * 60 * 1000 ≤ tickExpiry mI d (k + j + 1)) →
    loopRun fuel (stateAt mI mh d k) = stoppedStateAt mI mh d (k + j) := by
  intro j
  induction j with
  | zero =>
    intro k fuel hfuel _ hstop
    match fuel, hfuel with
    | fuel' + 1, _ =>
      simpa using loopRun_stateAt_stop mI mh d k fuel' (by simpa using hstop)
  | succ j ih =>
    intro k fuel hfuel hticks hstop
    match fuel, hfuel with
    | fuel' + 1, _ =>
      rw [loopRun_stateAt_step mI mh d k fuel' (by simpa using hticks 0 (Nat.succ_pos j))]
      have hticks' : ∀ i, i < j → tickExpiry mI d (k + 1 + i + 1) < d + mh * 60 * 60 * 1000 := by
        intro i hi
        have := hticks (i + 1) (by omega)
        rw [show k + 1 + i + 1 = k + (i + 1) + 1 from by omega]
        exact this
      have hstop' : d + mh * 60 * 60 * 1000 ≤ tickExpiry mI d (k + 1 + j + 1) := by
        rw [show k + 1 + j + 1 = k + (j + 1) + 1 from by omega]
        exact hstop
      rw [ih (k + 1) fuel' (by omega) hticks' hstop']
      rw [show k + 1 + j = k + (j + 1) from by omega]

/-! ## Claims C1 and C2 -/

/-- C1: in a scheduled tick whose mint or either propagation step fails,
the fired timer callback leaves the daemon with: status-file `status`
persisted as `error`; `refreshCount` (both in memory and in the status
file) unchanged; the loop not terminated (`exitCode` still as before);
and exactly one subsequent tick armed, `refreshIntervalMinutes * 60 *
1000` ms after the failing cycle ended.  All other fields are
untouched, as the full-state equation shows. -/
theorem claim_c1 (s : LoopState) (o : TickOutcome) (ho : o ≠ TickOutcome.success) :
    onRefreshTimerFire s o =
      { s with
          nowMs := s.nowMs + s.tickDurMs
          stStatus := StKind.error
          refreshTimer :=
            some (s.nowMs + s.tickDurMs + s.refreshIntervalMinutes * 60 * 1000) } := by
  cases o with
  | success => exact absurd rfl ho
  | mintFailed => rfl
  | gitAuthFailed => rfl
  | ghAuthFailed => rfl

/-- A concrete daemon state for the C1 witness: mid-run, 3 refreshes
done, a 30-minute interval. -/
def sEx1 : LoopState :=
  { nowMs := 5000000
    refreshIntervalMinutes := 30
    tickDurMs := 2000
    refreshTimer := none
    maxRuntimeTimer := some 21600000
    refreshCount := 3
    stStatus := StKind.running
    stLastRefresh := some 4000000
    stNextRefresh := some 5000000
    stRefreshCount := 3
    exitCode := none }

/-- Witness for C1 at a concrete state and a concrete failing outcome. -/
theorem claim_c1_witness :
    TickOutcome.mintFailed ≠ TickOutcome.success ∧
    onRefreshTimerFire sEx1 TickOutcome.mintFailed =
      { sEx1 with
          nowMs := sEx1.nowMs + sEx1.tickDurMs
          stStatus := StKind.error
          refreshTimer :=
            some (sEx1.nowMs + sEx1.tickDurMs + sEx1.refreshIntervalMinutes * 60 * 1000) } :=
  ⟨by decide, claim_c1 sEx1 TickOutcome.mintFailed (by decide)⟩

/-- C2: with `refreshIntervalMinutes = 30` and `maxRuntimeHours = 6`, a
failure-free run (each scheduled mint-and-propagate cycle taking `d` ms
with `10 * d` under one interval — e.g. any cycle under 3 minutes)
performs exactly 12 refresh ticks — the initial tick at start plus 11
scheduled ones — before the max-runtime timer fires, at which point the
daemon has cancelled both timers, written a final status of `stopped`,
and exited with code 0. -/
theorem claim_c2 (d : Nat) (hd : 10 * d < 1800000) :
    loopRun 20 (startState 30 6 d) = stoppedStateAt 30 6 d 11 ∧
    (loopRun 20 (startState 30 6 d)).refreshCount = 12 ∧
    (loopRun 20 (startState 30 6 d)).stRefreshCount = 12 ∧
    (loopRun 20 (startState 30 6 d)).stStatus = StKind.stopped ∧
    (loopRun 20 (startState 30 6 d)).exitCode = some 0 ∧
    (loopRun 20 (startState 30 6 d)).refreshTimer = none ∧
    (loopRun 20 (startState 30 6 d)).maxRuntimeTimer = none := by
  have hrun : loopRun 20 (startState 30 6 d) = stoppedStateAt 30 6 d 11 := by
    rw [startState_eq_stateAt]
    have h := loopRun_ticks 30 6 d 11 0 20 (by omega)
      (by
        intro i hi
        simp only [tickExpiry]
        have h1 : (0 + i + 1) * (30 * 60 * 1000 + d) ≤ 11 * (30 * 60 * 1000 + d) :=
          mul_le_mul_right' (by omega) (30 * 60 * 1000 + d)
        omega)
      (by
        simp only [tickExpiry]
        omega)
    simpa using h
  refine ⟨hrun, ?_, ?_, ?_, ?_, ?_, ?_⟩ <;> rw [hrun] <;> rfl

/-- Witness for C2 with two-second ticks. -/
theorem claim_c2_witness :
    10 * 2000 < 1800000 ∧
    (loopRun 20 (startState 30 6 2000)).refreshCount = 12 ∧
    (loopRun 20 (startState 30 6 2000)).stStatus = StKind.stopped ∧
    (loopRun 20 (startState 30 6 2000)).exitCode = some 0 :=
  ⟨by norm_num, (claim_c2 2000 (by norm_num)).2.1, (claim_c2 2000 (by norm_num)).2.2.2.1,
    (claim_c2 2000 (by norm_num)).2.2.2.2.1⟩

/-! ## DaemonController (`src/daemon/token-refresh-daemon.ts`, class
`DaemonController`)

The controller runs in the caller process.  Its world is the three
StatusChannel files plus the OS process table and its in-memory
`daemonProcess` handle.  File-system primitives never fail in the
model, matching the fact that every controller operation swallows its
own I/O errors. -/

/-- The StatusChannel files as seen from one process. -/
structure CtrlFS where
  statusFile : Option (Option DStatus)
  pidFile : Option Nat
  logFile : Option String
deriving DecidableEq

/-- Controller-side state: the files, the in-memory `daemonProcess`
handle (its pid, when present), and the OS process table (live pids). -/
structure CtrlState where
  fs : CtrlFS
  daemonHandle : Option Nat
  livePids : List Nat
deriving DecidableEq

/-- `DaemonController.getStatus` (lines 497-509): read and parse the
status file; a missing or unparsable file is `null`, never an error. -/
def ctrlGetStatus (fs : CtrlFS) : Option DStatus :=
  match fs.statusFile with
  | some (some st) => some st
  | _ => none

/-- `isProcessRunning` (lines 560-567): `process.kill(pid, 0)` succeeds
exactly when the pid is a live process. -/
def isProcessRunning (livePids : List Nat) (pid : Nat) : Bool :=
  livePids.contains pid

/-- `DaemonController.isHealthy` (lines 514-521): false when the status
record is absent or not `running`, else an OS liveness probe of the
recorded pid. -/
def isHealthy (s : CtrlState) : Bool :=
  match ctrlGetStatus s.fs with
  | none => false
  | some st =>
    if st.status = StKind.running then isProcessRunning s.livePids st.pid
    else false

/-- `DaemonController.stopDaemon` (lines 452-492): resolve the target
pid from the pid file, overridden by the in-memory handle; if that pid
is alive, SIGTERM it, wait, and SIGKILL if needed (net effect: the pid
is no longer live); then delete the pid and status files and clear the
handle.  The whole body is wrapped in try/catch, so it never fails the
caller. -/
def stopDaemon (s : CtrlState) : CtrlState :=
  let pid : Option Nat :=
    match s.daemonHandle with
    | some p => some p
    | none => s.fs.pidFile
  let s1 : CtrlState :=
    match pid with
    | some p =>
      if isProcessRunning s.livePids p then
        { s with livePids := s.livePids.filter (fun q => q != p) }
      else s
    | none => s
  { s1 with
      fs := { s1.fs with pidFile := none, statusFile := none }
      daemonHandle := none }

/-- `DaemonController.updateStatus` (lines 544-558) specialised to the
`{status: "stopped"}` merge performed by the daemon-exit handler
(lines 424-427): read-merge-write of the status file, with a default
record when it is absent or unparsable (its `startTime`, `Date.now()`
in the source, is abstracted to 0 — no claim depends on it). -/
def ctrlUpdateStatusStopped (fs : CtrlFS) : CtrlFS :=
  let current : DStatus :=
    match ctrlGetStatus fs with
    | some st => st
    | none =>
      { pid := 0, startTime := 0, status := StKind.stopped
        lastRefresh := none, nextRefresh := none, refreshCount := 0 }
  { fs with statusFile := some (some { current with status := StKind.stopped }) }

/-- The controller-side events that can occur after `startDaemon` has
returned: the three read operations, the `daemonProcess.on("exit")`
handler, and the `stopDaemon` cleanup. -/
inductive CtrlEvent
  | readStatus
  | readHealth
  | readLogs (tailLines : Nat)
  | childExit (code : Nat)
  | stopCleanup
deriving DecidableEq

/-- Is the spawned daemon process still alive? -/
def daemonAlive (s : CtrlState) : Bool :=
  match s.daemonHandle with
  | some pid => isProcessRunning s.livePids pid
  | none => false

/-- State effect of each controller event.  `getStatus`, `isHealthy`
and `getLogs` only read.  The exit handler logs and performs the
`{status: "stopped"}` status merge.  `stopCleanup` is `stopDaemon`. -/
def ctrlApply (s : CtrlState) (e : CtrlEvent) : CtrlState :=
  match e with
  | CtrlEvent.readStatus => s
  | CtrlEvent.readHealth => s
  | CtrlEvent.readLogs _ => s
  | CtrlEvent.childExit _ => { s with fs := ctrlUpdateStatusStopped s.fs }
  | CtrlEvent.stopCleanup => stopDaemon s

/-- Runtime admissibility of an event: the `exit` handler is invoked by
the event loop only once the child process has actually exited; the
other events can occur at any time. -/
def validEvent (s : CtrlState) (e : CtrlEvent) : Prop :=
  match e with
  | CtrlEvent.childExit _ => daemonAlive s = false
  | _ => True

/-- JavaScript `Array.prototype.slice(-t)` on a list of lines: the last
`t` elements (all of them when `t` exceeds the length); `slice(-0)` is
`slice(0)`, the whole array. -/
def jsSliceLast (t : Nat) (l : List String) : List String :=
  if t = 0 then l else l.drop (l.length - t)

/-- Character-level worker for JavaScript `content.split("\n")`:
accumulates the current line (reversed) and emits a line at every
newline; the final accumulator is always emitted, so the empty string
splits to `[""]`, as in JavaScript. -/
def splitNLGo (acc : List Char) : List Char → List (List Char)
  | [] => [acc.reverse]
  | c :: cs => if c = '\n' then acc.reverse :: splitNLGo [] cs else splitNLGo (c :: acc) cs

/-- JavaScript `content.split("\n")`. -/
def jsSplitNewlines (content : String) : List String :=
  (splitNLGo [] content.data).map (fun cs => { data := cs })

/-- A log line survives the `filter((line) => line.trim())` step exactly
when its trimmed form is non-empty, i.e. when it contains some
non-whitespace character. -/
def isNonBlank (line : String) : Bool := line.data.any (fun c => !c.isWhitespace)

/-- The line list produced by `DaemonController.getLogs` (lines
526-542) for a present log file: split on newlines, keep the last
`tailLines` entries, drop blank lines. -/
def getLogsList (content : String) (tailLines : Nat) : List String :=
  (jsSliceLast tailLines (jsSplitNewlines content)).filter isNonBlank

/-- `DaemonController.getLogs`: the sentinel string when the log file
is absent, else the filtered tail joined with newlines.  All I/O
errors are caught, so the operation is total. -/
def getLogs (fs : CtrlFS) (tailLines : Nat) : String :=
  match fs.logFile with
  | none => "No logs available"
  | some content => String.intercalate ("\n") (getLogsList content tailLines)

/-! ## Claims C3, C4, C7, C8 -/

/-- C3: `isHealthy()` is true iff the status file exists and parses,
its `status` field is `running`, and the OS confirms the recorded pid
is live; in particular it is false for every recorded status whenever
the recorded pid is not OS-live. -/
theorem claim_c3 :
    (∀ s : CtrlState,
      isHealthy s = true ↔
        ∃ st : DStatus, s.fs.statusFile = some (some st) ∧
          st.status = StKind.running ∧ isProcessRunning s.livePids st.pid = true) ∧
    (∀ (s : CtrlState) (st : DStatus),
      s.fs.statusFile = some (some st) →
      isProcessRunning s.livePids st.pid = false →
      isHealthy s = false) := by
  have hmain : ∀ s : CtrlState,
      isHealthy s = true ↔
        ∃ st : DStatus, s.fs.statusFile = some (some st) ∧
          st.status = StKind.running ∧ isProcessRunning s.livePids st.pid = true := by
    intro s
    constructor
    · intro h
      match hfile : s.fs.statusFile with
      | none => simp [isHealthy, ctrlGetStatus, hfile] at h
      | some none => simp [isHealthy, ctrlGetStatus, hfile] at h
      | some (some st) =>
        refine ⟨st, rfl, ?_⟩
        by_cases hrun : st.status = StKind.running
        · simp [isHealthy, ctrlGetStatus, hfile, hrun] at h
          exact ⟨hrun, h⟩
        · simp [isHealthy, ctrlGetStatus, hfile, hrun] at h
    · rintro ⟨st, hfile, hrun, halive⟩
      simp [isHealthy, ctrlGetStatus, hfile, hrun, halive]
  refine ⟨hmain, ?_⟩
  intro s st hfile hdead
  by_contra h
  rw [Bool.not_eq_false] at h
  obtain ⟨st', hfile', _, halive'⟩ := (hmain s).mp h
  rw [hfile] at hfile'
  obtain rfl : st = st' := by injection hfile' with h'; injection h'
  rw [halive'] at hdead
  exact Bool.true_eq_false.mp hdead

/-- A status record that claims `running` for a dead pid. -/
def stEx3 : DStatus :=
  { pid := 41, startTime := 0, status := StKind.running
    lastRefresh := none, nextRefresh := none, refreshCount := 2 }

/-- A controller state whose status file records `running` for pid 41,
while only pid 9 is OS-live. -/
def sEx3 : CtrlState :=
  { fs := { statusFile := some (some stEx3), pidFile := some 41, logFile := none }
    daemonHandle := none
    livePids := [9] }

/-- Witness for C3: stale `running` record with a dead pid is reported
unhealthy. -/
theorem claim_c3_witness : isHealthy sEx3 = false :=
  claim_c3.2 sEx3 stEx3 rfl (by decide)

/-- C4: while the daemon process is alive, no controller event other
than `stopDaemon`'s file deletion mutates the status file: the three
read operations leave it untouched, and the only other writer — the
`exit`-handler merge — can only run once the daemon process is no
longer alive.  (The initial record written by `startDaemon` precedes
all events modelled here.) -/
theorem claim_c4 (s : CtrlState) (e : CtrlEvent)
    (hvalid : validEvent s e) (halive : daemonAlive s = true)
    (hnotstop : e ≠ CtrlEvent.stopCleanup) :
    (ctrlApply s e).fs.statusFile = s.fs.statusFile := by
  cases e with
  | readStatus => rfl
  | readHealth => rfl
  | readLogs n => rfl
  | childExit c =>
    exact absurd halive (by simp [validEvent] at hvalid; simp [hvalid])
  | stopCleanup => exact absurd rfl hnotstop

/-- A controller state whose daemon (pid 7) is alive. -/
def sEx4 : CtrlState :=
  { fs := { statusFile := some (some stEx3), pidFile := some 7, logFile := none }
    daemonHandle := some 7
    livePids := [7] }

/-- Witness for C4: a status read while the daemon is alive leaves the
status file unchanged. -/
theorem claim_c4_witness :
    daemonAlive sEx4 = true ∧
    (ctrlApply sEx4 CtrlEvent.readStatus).fs.statusFile = sEx4.fs.statusFile :=
  ⟨by decide, claim_c4 sEx4 CtrlEvent.readStatus trivial (by decide) (by decide)⟩

/-- C7: `stopDaemon()` is idempotent and total for the caller — it is a
function defined on every controller state (all failures are swallowed
in the source), calling it twice equals calling it once, and after it
returns neither the pid file nor the status file exists. -/
theorem claim_c7 (s : CtrlState) :
    stopDaemon (stopDaemon s) = stopDaemon s ∧
    (stopDaemon s).fs.pidFile = none ∧
    (stopDaemon s).fs.statusFile = none := by
  rcases s with ⟨⟨sf, pf, lf⟩, dh, lp⟩
  cases dh <;> cases pf <;> exact ⟨rfl, rfl, rfl⟩

/-- The controller state of a job in which no daemon was ever started. -/
def emptyCtrl : CtrlState :=
  { fs := { statusFile := none, pidFile := none, logFile := none }
    daemonHandle := none
    livePids := [] }

/-- Witness for C7 on a state with a live daemon and all files present
(and, separately, on the empty never-started state). -/
theorem claim_c7_witness :
    (stopDaemon (stopDaemon sEx4) = stopDaemon sEx4 ∧
      (stopDaemon sEx4).fs.pidFile = none ∧
      (stopDaemon sEx4).fs.statusFile = none) ∧
    stopDaemon (stopDaemon emptyCtrl) = stopDaemon emptyCtrl :=
  ⟨claim_c7 sEx4, (claim_c7 emptyCtrl).1⟩

/-- The controller filesystem holding a concrete 3-line log file. -/
def fsEx8 : CtrlFS :=
  { statusFile := none
    pidFile := none
    logFile := some ("line one\nline two\nline three\n") }

/-- C8: for every log-file content and every `tailLines ≥ 1`,
`getLogs` returns at most the last `tailLines` non-blank lines — the
returned lines are a suffix of the file's non-blank lines, of length at
most `tailLines` — and a sentinel message when the file is absent; the
operation is a total function.  In particular `getLogs 5` on a concrete
3-line log file returns all 3 lines. -/
theorem claim_c8 (content : String) (tailLines : Nat) (ht : 1 ≤ tailLines) :
    (getLogsList content tailLines).length ≤ tailLines ∧
    getLogsList content tailLines <:+
      (jsSplitNewlines content).filter isNonBlank ∧
    (∀ fs : CtrlFS, fs.logFile = some content →
      getLogs fs tailLines = String.intercalate ("\n") (getLogsList content tailLines)) ∧
    (∀ fs : CtrlFS, fs.logFile = none → getLogs fs tailLines = "No logs available") ∧
    getLogs fsEx8 5 = "line one\nline two\nline three" := by
  refine ⟨?_, ?_, ?_, ?_, ?_⟩
  · calc (getLogsList content tailLines).length
        ≤ (jsSliceLast tailLines (jsSplitNewlines content)).length :=
          List.length_filter_le _ _
      _ ≤ tailLines := by
          simp only [jsSliceLast]
          rw [if_neg (by omega)]
          rw [List.length_drop]
          omega
  · refine List.IsSuffix.filter isNonBlank ?_
    simp only [jsSliceLast]
    rw [if_neg (by omega)]
    exact List.drop_suffix _ _
  · intro fs hlog
    simp [getLogs, hlog]
  · intro fs hlog
    simp [getLogs, hlog]
  · decide

/-! ## TokenRefreshServer (`src/mcp/token-refresh-server.ts`)

The monitoring front end's `check_daemon_health` tool.  Its staleness
threshold is computed from a constant `refreshIntervalMs = 30 * 60 *
1000` declared inside `checkDaemonHealth` — the server has no access to
the daemon's configuration, so the threshold does not vary with the
configured `refreshIntervalMinutes`. -/

/-- The six health classifications of `checkDaemonHealth`. -/
inductive HealthClass
  | healthy
  | warning
  | errorClass
  | stoppedClass
  | deadProcess
  | unknown
deriving DecidableEq

/-- The constant `refreshIntervalMs` hardcoded in
`TokenRefreshServer.checkDaemonHealth` (line 252): 30 minutes,
independent of the daemon's configured interval. -/
def hardcodedRefreshIntervalMs : Nat := 30 * 60 * 1000

/-- `TokenRefreshServer.checkDaemonHealth` (lines 226-301) as a
classifier.  A missing status file is Unknown; an unparsable one lands
in the catch block, which reports Error.  For a parsed record: when it
self-reports `running` and the pid is OS-live, the elapsed time since
`lastRefresh` (epoch 0 when absent, as `new Date(undefined ? ...: 0)`)
is compared against `refreshIntervalMs * 1.5` = 2700000 ms; stale means
Warning, else Healthy.  Otherwise `error` → Error, `stopped` → Stopped,
and a dead process with a `running` record → Dead Process.  (The final
Unknown branch is unreachable here because a parsed `StKind` has no
further values.)  JavaScript computes `now - lastRefresh` as a possibly
negative number; for a future `lastRefresh` both it and the truncated
`Nat` subtraction fail the `> 2700000` test, so the model agrees. -/
def checkDaemonHealth (file : Option (Option DStatus)) (livePids : List Nat)
    (nowMs : Nat) : HealthClass :=
  match file with
  | none => HealthClass.unknown
  | some none => HealthClass.errorClass
  | some (some st) =>
    let alive := isProcessRunning livePids st.pid
    if st.status = StKind.running ∧ alive = true then
      let lastRefreshMs :=
        match st.lastRefresh with
        | some t => t
        | none => 0
      if 3 * hardcodedRefreshIntervalMs / 2 < nowMs - lastRefreshMs then
        HealthClass.warning
      else HealthClass.healthy
    else if st.status = StKind.error then HealthClass.errorClass
    else if st.status = StKind.stopped then HealthClass.stoppedClass
    else if alive = false then HealthClass.deadProcess
    else HealthClass.unknown

/-- A running, OS-live status record whose last refresh was 50 minutes
before the probe below. -/
def stEx5 : DStatus :=
  { pid := 7, startTime := 0, status := StKind.running
    lastRefresh := some 0, nextRefresh := none, refreshCount := 1 }

/-- Counterexample to C5 as stated.  Take a daemon configured with
`refreshIntervalMinutes = 60` whose status record self-reports
`running`, whose pid is OS-live, and whose last refresh was 50 minutes
ago (`nowMs = 3000000`, `lastRefresh = 0`).  The claim says health is
`warning` exactly when the elapsed time exceeds 1.5 × the configured
interval = 90 minutes, hence `healthy` here; but `checkDaemonHealth`
compares against the hardcoded 1.5 × 30 minutes and reports `warning`.
So the claimed equivalence fails at this input. -/
theorem claim_c5_counterexample :
    ¬ (checkDaemonHealth (some (some stEx5)) [7] 3000000 = HealthClass.warning ↔
        3 * (60 * 60 * 1000) / 2 < 3000000 - 0) := by
  decide

/-- C5 (amended): for every status record whose status is `running` and
whose pid is OS-live and which carries a `lastRefresh`, the health
query classifies health as `warning` exactly when the elapsed time
since `lastRefresh` exceeds 1.5 × the HARDCODED 30-minute interval
(2700000 ms) — not the configured `refreshIntervalMinutes` — and as
`healthy` otherwise. -/
theorem claim_c5_amended (st : DStatus) (livePids : List Nat) (nowMs lr : Nat)
    (hrun : st.status = StKind.running)
    (halive : isProcessRunning livePids st.pid = true)
    (hlr : st.lastRefresh = some lr) :
    (checkDaemonHealth (some (some st)) livePids nowMs = HealthClass.warning ↔
      3 * hardcodedRefreshIntervalMs / 2 < nowMs - lr) ∧
    (checkDaemonHealth (some (some st)) livePids nowMs = HealthClass.healthy ↔
      nowMs - lr ≤ 3 * hardcodedRefreshIntervalMs / 2) := by
  constructor
  · constructor
    · intro h
      by_contra hle
      simp [checkDaemonHealth, hrun, halive, hlr, hle] at h
    · intro h
      simp [checkDaemonHealth, hrun, halive, hlr, h]
  · constructor
    · intro h
      by_contra hgt
      rw [Nat.not_le] at hgt
      simp [checkDaemonHealth, hrun, halive, hlr, hgt] at h
    · intro h
      simp [checkDaemonHealth, hrun, halive, hlr, Nat.not_lt.mpr h]

/-- Witness for the amended C5 at a concrete stale input: 50 minutes
since last refresh exceeds the hardcoded 45-minute threshold, so the
classification is `warning`. -/
theorem claim_c5_amended_witness :
    stEx5.status = StKind.running ∧
    isProcessRunning [7] stEx5.pid = true ∧
    stEx5.lastRefresh = some 0 ∧
    checkDaemonHealth (some (some stEx5)) [7] 3000000 = HealthClass.warning :=
  ⟨rfl, by decide, rfl,
    (claim_c5_amended stEx5 [7] 3000000 0 rfl (by decide) rfl).1.mpr (by decide)⟩

/-- Witness for C8: `getLogs 5` on the concrete 3-line log file returns
all three lines. -/
theorem claim_c8_witness :
    1 ≤ 5 ∧ getLogs fsEx8 5 = "line one\nline two\nline three" :=
  ⟨by decide,
    (claim_c8 ("line one\nline two\nline three\n") 5 (by decide)).2.2.2.2⟩
